import Mathlib

/-!
Verification of scripts/create-pack-xlsx.py: a shallow embedding of the
pack-extraction transformation (selection, copying and print-layout
annotation of worksheet content) together with proofs of the documented
properties.

Modelling conventions: machine-level openpyxl objects are replaced by
records; optional attributes (which are None until set) are Option values;
Python dicts keyed by strings or addresses are association lists; the
single mutated destination workbook is threaded explicitly through the
loop as a state record.  Style objects (font, border, fill and so on) are
not part of the model: no claim depends on them, only on values, merges,
print areas, page setup and margins.
-/

namespace PackXlsx

/-- Association-list lookup, modelling Python dict read access by key. -/
def getAssoc {α β : Type} [DecidableEq α] : List (α × β) → α → Option β
  | [], _ => none
  | p :: rest, k => if p.1 = k then some p.2 else getAssoc rest k

/-- Association-list update, modelling Python dict assignment: the first
entry with the key is replaced, otherwise a new entry is appended. -/
def setAssoc {α β : Type} [DecidableEq α] : List (α × β) → α → β → List (α × β)
  | [], k, v => [(k, v)]
  | p :: rest, k, v => if p.1 = k then (k, v) :: rest else p :: setAssoc rest k v

/-- Cell contents as loaded by openpyxl with data_only=False: a formula is
kept as its literal string (for example "=A1*2"), never evaluated. -/
inductive CellValue where
  | vInt (i : Int)
  | vStr (s : String)
  | vBool (b : Bool)
  | vEmpty
deriving DecidableEq, Repr

/-- A rectangular merged-cell range; the top-left cell (minRow, minCol) is
the anchor that carries the data. -/
structure CellRange where
  minRow : Nat
  minCol : Nat
  maxRow : Nat
  maxCol : Nat
deriving DecidableEq, Repr

def CellRange.containsCell (r : CellRange) (row col : Nat) : Bool :=
  decide (r.minRow ≤ row) && decide (row ≤ r.maxRow)
    && decide (r.minCol ≤ col) && decide (col ≤ r.maxCol)

/-- A grid position is iterated by openpyxl as a MergedCell placeholder
exactly when it lies inside some merged range without being its anchor. -/
def isMergedSubordinate (ranges : List CellRange) (row col : Nat) : Bool :=
  ranges.any (fun r => r.containsCell row col && !(row == r.minRow && col == r.minCol))

/-- The page-setup attributes read and written by the script.  openpyxl
leaves every attribute None until it is assigned. -/
structure PageSetup where
  paperSize : Option Int
  scale : Option Int
  fitToPage : Option Bool
  fitToWidth : Option Int
  fitToHeight : Option Int
  orientation : Option String
deriving DecidableEq, Repr

/-- A fresh PrintPageSetup record: every attribute still None. -/
def PageSetup.initial : PageSetup :=
  { paperSize := none, scale := none, fitToPage := none,
    fitToWidth := none, fitToHeight := none, orientation := none }

structure PageMargins where
  left : ℚ
  right : ℚ
  top : ℚ
  bottom : ℚ
  header : ℚ
  footer : ℚ
deriving DecidableEq, Repr

/-- openpyxl default margins of a freshly created sheet. -/
def PageMargins.initial : PageMargins :=
  { left := 0.75, right := 0.75, top := 1, bottom := 1, header := 0.5, footer := 0.5 }

structure ColumnDim where
  width : Option ℚ
  hidden : Bool
deriving DecidableEq, Repr

structure RowDim where
  height : Option ℚ
  hidden : Bool
deriving DecidableEq, Repr

/-- A source worksheet: the populated grid cells in iteration order (each
address listed once), merged ranges, an optional print area, an optional
non-empty page-setup record (none models an empty, falsy record), and the
explicit column and row dimension entries. -/
structure SourceSheet where
  cells : List ((Nat × Nat) × CellValue)
  mergedRanges : List CellRange
  printArea : Option String
  pageSetup : Option PageSetup
  columnDims : List (String × ColumnDim)
  rowDims : List (Nat × RowDim)
deriving DecidableEq, Repr

def SourceSheet.empty : SourceSheet :=
  { cells := [], mergedRanges := [], printArea := none, pageSetup := none,
    columnDims := [], rowDims := [] }

/-- A destination worksheet of the freshly built pack workbook. -/
structure DestSheet where
  title : String
  cells : List ((Nat × Nat) × CellValue)
  mergedRanges : List CellRange
  printArea : Option String
  pageSetup : PageSetup
  pageMargins : PageMargins
  columnDims : List (String × ColumnDim)
  rowDims : List (Nat × RowDim)
deriving DecidableEq, Repr

/-- A freshly created sheet, as made by Workbook() for the default sheet or
by create_sheet: empty grid, no merges, no print area, untouched setup. -/
def DestSheet.new (t : String) : DestSheet :=
  { title := t, cells := [], mergedRanges := [], printArea := none,
    pageSetup := PageSetup.initial, pageMargins := PageMargins.initial,
    columnDims := [], rowDims := [] }

/-- One entry of the pack_sheets configuration array.  Optional fields model
Python dict.get with a default: order 999, orientation "portrait",
expected_pages 1. -/
structure SheetSpec where
  name : String
  order : Option Int
  orientation : Option String
  expected_pages : Option Int
deriving DecidableEq, Repr

/-- The pack export configuration JSON. -/
structure PackConfig where
  pack_sheets : Option (List SheetSpec)
  page_tolerance : Option Int
deriving DecidableEq, Repr

/-- The source workbook: named sheets in workbook order. -/
structure SourceWorkbook where
  sheets : List (String × SourceSheet)
deriving DecidableEq, Repr

def SourceWorkbook.sheetnames (wb : SourceWorkbook) : List String :=
  wb.sheets.map (fun p => p.1)

/-- The destination workbook as persisted by dest_wb.save. -/
structure Workbook where
  sheets : List DestSheet
deriving DecidableEq, Repr

/-- The status dict returned by create_pack_workbook. -/
structure Result where
  success : Bool
  source : String
  output : String
  sheets_copied : List String
  sheets_missing : List String
  expected_pages : Int
  page_tolerance : Int
deriving DecidableEq, Repr

/-- DEFAULT_PRINT_COLUMNS from create-pack-xlsx.py: sheet name to rightmost
printed column letter. -/
def DEFAULT_PRINT_COLUMNS : List (String × String) :=
  [("Investment Summary", "M"), ("Returns Summary", "G"), ("Error Check", "F"),
   ("Model Outputs", "H"), ("Annual CF", "N"), ("Assumptions", "F"),
   ("Rent Roll", "L"), ("Renovation Budget", "E"), ("Monthly CF", "BM")]

/-- DEFAULT_PRINT_ROWS from create-pack-xlsx.py: sheet name to bottom
printed row number. -/
def DEFAULT_PRINT_ROWS : List (String × Nat) :=
  [("Investment Summary", 50), ("Returns Summary", 40), ("Error Check", 30),
   ("Model Outputs", 60), ("Annual CF", 45), ("Assumptions", 80),
   ("Rent Roll", 50), ("Renovation Budget", 40), ("Monthly CF", 60)]

/-- Python truthiness of an optional string attribute: None and the empty
string are falsy, any other string is truthy. -/
def pyTruthyStr : Option String → Bool
  | none => false
  | some s => s != ""

/-- get_print_area: pass a truthy declared print area through unchanged,
otherwise synthesize an A1-anchored range from the two default tables with
fallback column "Z" and row 100. -/
def get_print_area (sheet : SourceSheet) (sheet_name : String) : String :=
  if pyTruthyStr sheet.printArea then sheet.printArea.getD ""
  else
    "A1:" ++ (getAssoc DEFAULT_PRINT_COLUMNS sheet_name).getD "Z"
      ++ toString ((getAssoc DEFAULT_PRINT_ROWS sheet_name).getD 100)

/-- apply_page_setup: copy the five size and fit attributes from a truthy
source page setup (defaults otherwise), then override the orientation from
the config entry and set the fixed margins. -/
def apply_page_setup (dest_sheet : DestSheet) (config_sheet : SheetSpec)
    (source_sheet : SourceSheet) : DestSheet :=
  let orientation := config_sheet.orientation.getD "portrait"
  let ps :=
    match source_sheet.pageSetup with
    | some sps =>
        { dest_sheet.pageSetup with
          paperSize := sps.paperSize, scale := sps.scale,
          fitToPage := sps.fitToPage, fitToWidth := sps.fitToWidth,
          fitToHeight := sps.fitToHeight }
    | none =>
        { dest_sheet.pageSetup with
          fitToPage := some true, fitToWidth := some 1, fitToHeight := some 0 }
  { dest_sheet with
    pageSetup := { ps with orientation := some orientation },
    pageMargins :=
      { left := 0.5, right := 0.5, top := 0.5, bottom := 0.5,
        header := 0.3, footer := 0.3 } }

/-- The per-cell step of copy_sheet_content: MergedCell placeholders are
skipped, any other cell has its raw value written to the same address of
the destination grid. -/
def copyCellStep (ranges : List CellRange)
    (cells : List ((Nat × Nat) × CellValue)) (c : (Nat × Nat) × CellValue) :
    List ((Nat × Nat) × CellValue) :=
  if isMergedSubordinate ranges c.1.1 c.1.2 then cells else setAssoc cells c.1 c.2

/-- copy_sheet_content: recreate the merged ranges, copy cell values, then
copy explicit column and row dimensions. -/
def copy_sheet_content (source_sheet : SourceSheet) (dest_sheet : DestSheet) : DestSheet :=
  { dest_sheet with
    mergedRanges := dest_sheet.mergedRanges ++ source_sheet.mergedRanges,
    cells := source_sheet.cells.foldl (copyCellStep source_sheet.mergedRanges) dest_sheet.cells,
    columnDims :=
      source_sheet.columnDims.foldl (fun acc p => setAssoc acc p.1 p.2) dest_sheet.columnDims,
    rowDims :=
      source_sheet.rowDims.foldl (fun acc p => setAssoc acc p.1 p.2) dest_sheet.rowDims }

/-- The membership test of the loop: sheet_name not in source_sheets,
negated. -/
def foundInSource (source_wb : SourceWorkbook) (spec : SheetSpec) : Bool :=
  source_wb.sheetnames.contains spec.name

/-- Sort key of a spec: x.get with key order and default 999. -/
def orderKey (s : SheetSpec) : Int :=
  s.order.getD 999

/-- The comparison used to sort pack_sheets. -/
abbrev orderLe (a b : SheetSpec) : Prop :=
  orderKey a ≤ orderKey b

instance : IsTotal SheetSpec orderLe :=
  ⟨fun a b => Int.le_total (orderKey a) (orderKey b)⟩

instance : IsTrans SheetSpec orderLe :=
  ⟨fun _ _ _ h1 h2 => le_trans h1 h2⟩

/-- Python sorted with key order-or-999 is a stable ascending sort; it is
modelled by insertion sort, which is stable with the same tie order. -/
def sortByOrder (l : List SheetSpec) : List SheetSpec :=
  l.insertionSort orderLe

/-- The body applied to one found sheet: copy content, set the print area,
then apply page setup. -/
def processOne (spec : SheetSpec) (src : SourceSheet) (dest : DestSheet) : DestSheet :=
  let dest1 := copy_sheet_content src dest
  let dest2 := { dest1 with printArea := some (get_print_area src spec.name) }
  apply_page_setup dest2 spec src

/-- Placement of a processed sheet in the destination workbook: the spec at
enumerate index 0 renames and reuses the default sheet, every later spec
appends a freshly created sheet. -/
def placeSheet (i : Nat) (spec : SheetSpec) (src : SourceSheet)
    (sheets : List DestSheet) : List DestSheet :=
  if i = 0 then
    match sheets with
    | d :: rest => processOne spec src { d with title := spec.name } :: rest
    | [] => []
  else sheets ++ [processOne spec src (DestSheet.new spec.name)]

/-- The mutable loop state of create_pack_workbook. -/
structure PackState where
  dest_sheets : List DestSheet
  sheets_copied : List String
  sheets_missing : List String
  total_expected_pages : Int
deriving DecidableEq, Repr

/-- One iteration of the extraction loop over the enumerated sorted specs:
a name absent from the source is recorded as missing and skipped, a found
sheet is processed, placed, and recorded as copied. -/
def packStep (source_wb : SourceWorkbook) (st : PackState)
    (ispec : Nat × SheetSpec) : PackState :=
  let spec := ispec.2
  let expected_pages := spec.expected_pages.getD 1
  if foundInSource source_wb spec then
    let src := (getAssoc source_wb.sheets spec.name).getD SourceSheet.empty
    { st with
      dest_sheets := placeSheet ispec.1 spec src st.dest_sheets,
      sheets_copied := st.sheets_copied ++ [spec.name],
      total_expected_pages := st.total_expected_pages + expected_pages }
  else
    { st with sheets_missing := st.sheets_missing ++ [spec.name] }

/-- create_pack_workbook: sort the configured specs, run the extraction
loop starting from a fresh workbook holding its single default sheet
(openpyxl titles it "Sheet"), then persist the workbook and build the
status dict.  Returns the persisted workbook together with the result. -/
def create_pack_workbook (source_path output_path : String)
    (source_wb : SourceWorkbook) (config : PackConfig) : Workbook × Result :=
  let pack_sheets := sortByOrder (config.pack_sheets.getD [])
  let init : PackState :=
    { dest_sheets := [DestSheet.new "Sheet"], sheets_copied := [],
      sheets_missing := [], total_expected_pages := 0 }
  let fin := pack_sheets.enum.foldl (packStep source_wb) init
  let result : Result :=
    { success := true, source := source_path, output := output_path,
      sheets_copied := fin.sheets_copied, sheets_missing := fin.sheets_missing,
      expected_pages := fin.total_expected_pages,
      page_tolerance := config.page_tolerance.getD 2 }
  (⟨fin.dest_sheets⟩, result)

/-- The exit code of main on a normal return from create_pack_workbook. -/
def exitCodeOf (r : Result) : Nat :=
  if r.success then 0 else 1

/-- Names of the configured specs found in the source, in processing order. -/
def copiedOf (wb : SourceWorkbook) (specs : List SheetSpec) : List String :=
  (specs.filter (foundInSource wb)).map SheetSpec.name

/-- Names of the configured specs absent from the source, in processing
order. -/
def missingOf (wb : SourceWorkbook) (specs : List SheetSpec) : List String :=
  (specs.filter (fun s => !foundInSource wb s)).map SheetSpec.name

/-- Sum of the configured expected page counts over the found specs. -/
def pagesOf (wb : SourceWorkbook) (specs : List SheetSpec) : Int :=
  ((specs.filter (foundInSource wb)).map (fun s => s.expected_pages.getD 1)).sum

theorem getAssoc_setAssoc {α β : Type} [DecidableEq α]
    (l : List (α × β)) (k k' : α) (v : β) :
    getAssoc (setAssoc l k v) k' = if k' = k then some v else getAssoc l k' := by
  induction l with
  | nil =>
    by_cases h : k' = k
    · subst h; simp [setAssoc, getAssoc]
    · simp [setAssoc, getAssoc, h, Ne.symm h]
  | cons p rest ih =>
    by_cases hpk : p.1 = k
    · by_cases h : k' = k
      · subst h; simp [setAssoc, getAssoc, hpk]
      · simp [setAssoc, getAssoc, hpk, h, Ne.symm h]
    · by_cases hpk' : p.1 = k'
      · have hk : ¬(k' = k) := by
          intro h; exact hpk (by rw [hpk', h])
        simp [setAssoc, getAssoc, hpk, hpk', hk]
      · simp [setAssoc, getAssoc, hpk, hpk', ih]

theorem getAssoc_eq_none_of_not_mem {α β : Type} [DecidableEq α]
    {l : List (α × β)} {k : α} (h : k ∉ l.map Prod.fst) :
    getAssoc l k = none := by
  induction l with
  | nil => rfl
  | cons p rest ih =>
    simp only [List.map_cons, List.mem_cons] at h
    push_neg at h
    simp [getAssoc, Ne.symm h.1, ih h.2]

theorem foldl_copyCellStep_subordinate (ranges : List CellRange)
    (a : Nat × Nat) (hsub : isMergedSubordinate ranges a.1 a.2 = true)
    (cells : List ((Nat × Nat) × CellValue)) :
    ∀ d : List ((Nat × Nat) × CellValue),
      getAssoc (cells.foldl (copyCellStep ranges) d) a = getAssoc d a := by
  induction cells with
  | nil => intro d; rfl
  | cons c rest ih =>
    intro d
    rw [List.foldl_cons, ih]
    unfold copyCellStep
    by_cases hc : isMergedSubordinate ranges c.1.1 c.1.2 = true
    · rw [if_pos hc]
    · rw [if_neg hc, getAssoc_setAssoc]
      have hne : ¬(a = c.1) := by
        intro h; exact hc (h ▸ hsub)
      rw [if_neg hne]

theorem foldl_copyCellStep_value (ranges : List CellRange)
    (a : Nat × Nat) (hsub : isMergedSubordinate ranges a.1 a.2 = false)
    (cells : List ((Nat × Nat) × CellValue)) :
    (cells.map Prod.fst).Nodup →
    ∀ d : List ((Nat × Nat) × CellValue),
      getAssoc (cells.foldl (copyCellStep ranges) d) a
        = (getAssoc cells a).or (getAssoc d a) := by
  induction cells with
  | nil => intro _ d; rfl
  | cons c rest ih =>
    intro hnd d
    simp only [List.map_cons, List.nodup_cons] at hnd
    rw [List.foldl_cons, ih hnd.2]
    by_cases hca : c.1 = a
    · have hrest : getAssoc rest a = none :=
        getAssoc_eq_none_of_not_mem (by rw [← hca]; exact hnd.1)
      have hc : isMergedSubordinate ranges c.1.1 c.1.2 = false := by
        rw [hca]; exact hsub
      simp [copyCellStep, hc, hsub, getAssoc_setAssoc, getAssoc, hca, hrest]
    · have h1 : getAssoc (copyCellStep ranges d c) a = getAssoc d a := by
        unfold copyCellStep
        by_cases hcsub : isMergedSubordinate ranges c.1.1 c.1.2 = true
        · rw [if_pos hcsub]
        · rw [if_neg hcsub, getAssoc_setAssoc, if_neg (fun h => hca h.symm)]
      rw [h1]
      simp [getAssoc, hca]

theorem orderedInsert_filter_key (k : Int) (a : SheetSpec) (l : List SheetSpec) :
    (l.orderedInsert orderLe a).filter (fun s => orderKey s == k)
      = if orderKey a == k then a :: l.filter (fun s => orderKey s == k)
        else l.filter (fun s => orderKey s == k) := by
  induction l with
  | nil =>
    by_cases h : orderKey a == k <;> simp [List.orderedInsert, List.filter, h]
  | cons b l ih =>
    by_cases hab : orderLe a b
    · rw [show (b :: l).orderedInsert orderLe a = a :: b :: l from by
        simp [List.orderedInsert, hab]]
      by_cases hak : orderKey a == k <;> simp [List.filter_cons, hak]
    · have hba : orderKey b < orderKey a := lt_of_not_le hab
      rw [show (b :: l).orderedInsert orderLe a = b :: l.orderedInsert orderLe a from by
        simp [List.orderedInsert, hab]]
      by_cases hak : orderKey a == k
      · have hbk : (orderKey b == k) = false := by
          rw [beq_eq_false_iff_ne]
          simp only [beq_iff_eq] at hak
          omega
        simp [List.filter_cons, hbk, ih, hak]
      · simp [List.filter_cons, ih, hak]

theorem sortByOrder_filter_key (k : Int) (l : List SheetSpec) :
    (sortByOrder l).filter (fun s => orderKey s == k)
      = l.filter (fun s => orderKey s == k) := by
  induction l with
  | nil => rfl
  | cons a l ih =>
    have ih2 : (l.insertionSort orderLe).filter (fun s => orderKey s == k)
        = l.filter (fun s => orderKey s == k) := ih
    rw [sortByOrder, List.insertionSort, orderedInsert_filter_key, ih2]
    by_cases hak : orderKey a == k <;> simp [List.filter_cons, hak]

theorem packStep_foldl_spec (wb : SourceWorkbook) (l : List (Nat × SheetSpec)) :
    ∀ st : PackState,
      ((l.foldl (packStep wb) st).sheets_copied
          = st.sheets_copied ++ copiedOf wb (l.map Prod.snd))
      ∧ ((l.foldl (packStep wb) st).sheets_missing
          = st.sheets_missing ++ missingOf wb (l.map Prod.snd))
      ∧ ((l.foldl (packStep wb) st).total_expected_pages
          = st.total_expected_pages + pagesOf wb (l.map Prod.snd)) := by
  induction l with
  | nil => intro st; simp [copiedOf, missingOf, pagesOf]
  | cons p rest ih =>
    intro st
    obtain ⟨h1, h2, h3⟩ := ih (packStep wb st p)
    rw [List.foldl_cons]
    cases hf : foundInSource wb p.2 with
    | true =>
      refine ⟨?_, ?_, ?_⟩
      · rw [h1]
        simp [packStep, hf, copiedOf, List.filter_cons]
      · rw [h2]
        simp [packStep, hf, missingOf, List.filter_cons]
      · rw [h3]
        simp [packStep, hf, pagesOf, List.filter_cons]
        omega
    | false =>
      refine ⟨?_, ?_, ?_⟩
      · rw [h1]
        simp [packStep, hf, copiedOf, List.filter_cons]
      · rw [h2]
        simp [packStep, hf, missingOf, List.filter_cons]
      · rw [h3]
        simp [packStep, hf, pagesOf, List.filter_cons]

/-- The destination sheets produced for the found specs, in processing
order, each built from a fresh sheet titled with the spec name. -/
def processedOf (wb : SourceWorkbook) (specs : List SheetSpec) : List DestSheet :=
  (specs.filter (foundInSource wb)).map
    (fun s => processOne s ((getAssoc wb.sheets s.name).getD SourceSheet.empty)
      (DestSheet.new s.name))

theorem processOne_title (spec : SheetSpec) (src : SourceSheet) (d : DestSheet) :
    (processOne spec src d).title = d.title := by
  cases h : src.pageSetup <;>
    simp [processOne, apply_page_setup, copy_sheet_content, h]

theorem processedOf_map_title (wb : SourceWorkbook) (specs : List SheetSpec) :
    (processedOf wb specs).map DestSheet.title = copiedOf wb specs := by
  simp [processedOf, copiedOf, List.map_map, Function.comp, processOne_title, DestSheet.new]

/-- Away from enumerate index 0 the loop only appends processed sheets to
the destination workbook. -/
theorem packStep_foldl_enumFrom_dest (wb : SourceWorkbook) :
    ∀ (l : List SheetSpec) (n : Nat), n ≠ 0 → ∀ st : PackState,
      ((l.enumFrom n).foldl (packStep wb) st).dest_sheets
        = st.dest_sheets ++ processedOf wb l := by
  intro l
  induction l with
  | nil => intro n hn st; simp [List.enumFrom, processedOf]
  | cons s rest ih =>
    intro n hn st
    rw [show (s :: rest).enumFrom n = (n, s) :: rest.enumFrom (n + 1) from rfl,
      List.foldl_cons, ih (n + 1) (Nat.succ_ne_zero n)]
    cases hf : foundInSource wb s with
    | true => simp [packStep, hf, placeSheet, hn, processedOf, List.filter_cons]
    | false => simp [packStep, hf, processedOf, List.filter_cons]

/-- The persisted sheet list: the processed found sheets in processing
order, preceded by the untouched default sheet whenever the first sorted
spec was not found (or pack_sheets is empty). -/
theorem create_pack_dest_sheets (cfg : PackConfig) (wb : SourceWorkbook)
    (sp op : String) :
    (create_pack_workbook sp op wb cfg).1.sheets
        = processedOf wb (sortByOrder (cfg.pack_sheets.getD []))
    ∨ (create_pack_workbook sp op wb cfg).1.sheets
        = DestSheet.new "Sheet" :: processedOf wb (sortByOrder (cfg.pack_sheets.getD [])) := by
  simp only [create_pack_workbook]
  cases hL : sortByOrder (cfg.pack_sheets.getD []) with
  | nil => right; simp [List.enum, List.enumFrom, processedOf]
  | cons s rest =>
    rw [show (s :: rest).enum = (0, s) :: rest.enumFrom 1 from rfl, List.foldl_cons]
    cases hf : foundInSource wb s with
    | true =>
      left
      rw [packStep_foldl_enumFrom_dest wb rest 1 one_ne_zero]
      simp [packStep, hf, placeSheet, processedOf, List.filter_cons, DestSheet.new]
    | false =>
      right
      rw [packStep_foldl_enumFrom_dest wb rest 1 one_ne_zero]
      simp [packStep, hf, processedOf, List.filter_cons]

/-- A configuration whose smallest-order spec names a sheet absent from the
source workbook. -/
def cfgFirstMissing : PackConfig :=
  { pack_sheets := some
      [{ name := "Ghost", order := some 1, orientation := none, expected_pages := none },
       { name := "Data", order := some 2, orientation := none, expected_pages := none }],
    page_tolerance := none }

/-- A source workbook holding a single sheet named "Data". -/
def wbDataOnly : SourceWorkbook :=
  { sheets := [("Data", SourceSheet.empty)] }

/-- A configuration with an empty pack_sheets array. -/
def cfgEmptyPack : PackConfig :=
  { pack_sheets := some [], page_tolerance := none }

/-- Claim C1: the output sheet set is NOT always the set of matched
configured names.  When the smallest-order spec is absent from the source
the default sheet is never consumed (the aliasing after the comment that
announces its removal never removes it, and the rename happens only at
enumerate index 0), so the persisted workbook keeps an orphan "Sheet";
likewise when pack_sheets is empty.  The missing first spec is still
recorded as missing, so the run returns normally. -/
theorem default_sheet_left_orphan :
    ((create_pack_workbook "golden.xlsx" "golden_pack.xlsx" wbDataOnly cfgFirstMissing).1.sheets.map
        DestSheet.title = ["Sheet", "Data"])
    ∧ (((cfgFirstMissing.pack_sheets.getD []).map SheetSpec.name).contains "Sheet" = false)
    ∧ ((create_pack_workbook "golden.xlsx" "golden_pack.xlsx" wbDataOnly cfgEmptyPack).1.sheets.map
        DestSheet.title = ["Sheet"])
    ∧ ((create_pack_workbook "golden.xlsx" "golden_pack.xlsx" wbDataOnly cfgFirstMissing).2.sheets_missing
        = ["Ghost"]) := by
  refine ⟨?_, ?_, ?_, ?_⟩ <;> rfl

/-- Claim C2: get_print_area returns a declared (truthy) source print area
unchanged; otherwise it synthesizes the A1-anchored default from the two
tables, with fallback column "Z" and row 100 for unrecognized names. -/
theorem get_print_area_spec (sheet : SourceSheet) (sheet_name : String) :
    (∀ s, sheet.printArea = some s → s ≠ "" → get_print_area sheet sheet_name = s)
    ∧ (pyTruthyStr sheet.printArea = false →
        get_print_area sheet sheet_name =
          "A1:" ++ (getAssoc DEFAULT_PRINT_COLUMNS sheet_name).getD "Z"
            ++ toString ((getAssoc DEFAULT_PRINT_ROWS sheet_name).getD 100)) := by
  constructor
  · intro s hs hne
    simp [get_print_area, pyTruthyStr, hs, hne]
  · intro h
    simp [get_print_area, h]

/-- A source sheet declaring an explicit print area. -/
def exSheetWithArea : SourceSheet :=
  { SourceSheet.empty with printArea := some "A1:K30" }

theorem get_print_area_spec_witness :
    get_print_area exSheetWithArea "Annual CF" = "A1:K30"
    ∧ get_print_area SourceSheet.empty "Annual CF" = "A1:N45"
    ∧ get_print_area SourceSheet.empty "Unknown Sheet" = "A1:Z100" := by
  refine ⟨?_, ?_, ?_⟩
  · exact (get_print_area_spec exSheetWithArea "Annual CF").1 "A1:K30" rfl (by decide)
  · exact ((get_print_area_spec SourceSheet.empty "Annual CF").2 (by decide)).trans (by decide)
  · exact ((get_print_area_spec SourceSheet.empty "Unknown Sheet").2 (by decide)).trans (by decide)

/-- Claim C3: the processing order of the configured sheets is the stable
ascending sort by order-or-999: a permutation of pack_sheets, with
pairwise non-decreasing keys, equal keys keeping their original relative
order (the sorted list filtered to any fixed key equals the original list
so filtered); sheets_copied records the found sheets in exactly that
order; and the persisted destination workbook places those sheets in
exactly the sheets_copied order, preceded only by the leftover default
sheet when the first sorted spec was not consumed. -/
theorem pack_order_sorted_stable (cfg : PackConfig) (wb : SourceWorkbook)
    (sp op : String) :
    (sortByOrder (cfg.pack_sheets.getD [])).Perm (cfg.pack_sheets.getD [])
    ∧ List.Sorted orderLe (sortByOrder (cfg.pack_sheets.getD []))
    ∧ (∀ k : Int, (sortByOrder (cfg.pack_sheets.getD [])).filter (fun s => orderKey s == k)
        = (cfg.pack_sheets.getD []).filter (fun s => orderKey s == k))
    ∧ (create_pack_workbook sp op wb cfg).2.sheets_copied
        = copiedOf wb (sortByOrder (cfg.pack_sheets.getD []))
    ∧ ((create_pack_workbook sp op wb cfg).1.sheets.map DestSheet.title
          = (create_pack_workbook sp op wb cfg).2.sheets_copied
        ∨ (create_pack_workbook sp op wb cfg).1.sheets.map DestSheet.title
          = "Sheet" :: (create_pack_workbook sp op wb cfg).2.sheets_copied) := by
  obtain ⟨h1, _, _⟩ := packStep_foldl_spec wb ((sortByOrder (cfg.pack_sheets.getD [])).enum)
    { dest_sheets := [DestSheet.new "Sheet"], sheets_copied := [],
      sheets_missing := [], total_expected_pages := 0 }
  have hcopied : (create_pack_workbook sp op wb cfg).2.sheets_copied
      = copiedOf wb (sortByOrder (cfg.pack_sheets.getD [])) := by
    simp only [create_pack_workbook]
    rw [h1]
    simp [List.enum_map_snd]
  refine ⟨List.perm_insertionSort orderLe _, List.sorted_insertionSort orderLe _,
    fun k => sortByOrder_filter_key k _, hcopied, ?_⟩
  rcases create_pack_dest_sheets cfg wb sp op with h | h
  · left
    rw [h, processedOf_map_title, hcopied]
  · right
    rw [h, List.map_cons, processedOf_map_title, hcopied]
    simp [DestSheet.new]

/-- Claim C4: the destination orientation always equals the configured
per-sheet orientation (default "portrait"), independent of the source page
setup. -/
theorem orientation_always_from_config (dest : DestSheet) (cfg : SheetSpec)
    (src : SourceSheet) :
    (apply_page_setup dest cfg src).pageSetup.orientation
      = some (cfg.orientation.getD "portrait") := by
  cases h : src.pageSetup <;> simp [apply_page_setup, h]

/-- Claim C5: after apply_page_setup the destination margins are exactly
left, right, top, bottom 0.5 and header, footer 0.3, independent of the
source sheet and of the configuration. -/
theorem margins_always_fixed (dest : DestSheet) (cfg : SheetSpec)
    (src : SourceSheet) :
    (apply_page_setup dest cfg src).pageMargins
      = { left := 0.5, right := 0.5, top := 0.5, bottom := 0.5,
          header := 0.3, footer := 0.3 } := by
  cases h : src.pageSetup <;> simp [apply_page_setup, h]

/-- Claim C6: with a non-empty source page setup, paperSize, scale and the
three fit flags are copied verbatim; with an empty one the destination gets
fitToPage true, fitToWidth 1, fitToHeight 0. -/
theorem page_setup_copy_or_default (dest : DestSheet) (cfg : SheetSpec)
    (src : SourceSheet) :
    (∀ sps, src.pageSetup = some sps →
      ((apply_page_setup dest cfg src).pageSetup.paperSize = sps.paperSize
        ∧ (apply_page_setup dest cfg src).pageSetup.scale = sps.scale
        ∧ (apply_page_setup dest cfg src).pageSetup.fitToPage = sps.fitToPage
        ∧ (apply_page_setup dest cfg src).pageSetup.fitToWidth = sps.fitToWidth
        ∧ (apply_page_setup dest cfg src).pageSetup.fitToHeight = sps.fitToHeight))
    ∧ (src.pageSetup = none →
      ((apply_page_setup dest cfg src).pageSetup.fitToPage = some true
        ∧ (apply_page_setup dest cfg src).pageSetup.fitToWidth = some 1
        ∧ (apply_page_setup dest cfg src).pageSetup.fitToHeight = some 0)) := by
  constructor
  · intro sps h
    simp [apply_page_setup, h]
  · intro h
    simp [apply_page_setup, h]

/-- A fully populated source page setup, opposite to the defaults. -/
def exPageSetup : PageSetup :=
  { paperSize := some 9, scale := some 80, fitToPage := some false,
    fitToWidth := some 2, fitToHeight := some 3, orientation := some "landscape" }

def exSrcWithSetup : SourceSheet :=
  { SourceSheet.empty with pageSetup := some exPageSetup }

def exSpec : SheetSpec :=
  { name := "T", order := none, orientation := none, expected_pages := none }

theorem page_setup_copy_or_default_witness :
    (apply_page_setup (DestSheet.new "T") exSpec exSrcWithSetup).pageSetup.paperSize = some 9
    ∧ (apply_page_setup (DestSheet.new "T") exSpec exSrcWithSetup).pageSetup.fitToHeight = some 3
    ∧ (apply_page_setup (DestSheet.new "T") exSpec SourceSheet.empty).pageSetup.fitToPage
        = some true := by
  refine ⟨?_, ?_, ?_⟩
  · exact ((page_setup_copy_or_default (DestSheet.new "T") exSpec exSrcWithSetup).1
      exPageSetup rfl).1
  · exact ((page_setup_copy_or_default (DestSheet.new "T") exSpec exSrcWithSetup).1
      exPageSetup rfl).2.2.2.2
  · exact ((page_setup_copy_or_default (DestSheet.new "T") exSpec SourceSheet.empty).2 rfl).1

/-- Claim C7: a configured name absent from the source is recorded in
sheets_missing and the loop continues; on return, sheets_copied and
sheets_missing together are exactly the configured names (as a
permutation of the pack_sheets name list) and no name is in both. -/
theorem copied_missing_partition (cfg : PackConfig) (wb : SourceWorkbook)
    (sp op : String) :
    ((create_pack_workbook sp op wb cfg).2.sheets_copied
        ++ (create_pack_workbook sp op wb cfg).2.sheets_missing).Perm
      ((cfg.pack_sheets.getD []).map SheetSpec.name)
    ∧ ((create_pack_workbook sp op wb cfg).2.sheets_copied).all
        (fun n => !(((create_pack_workbook sp op wb cfg).2.sheets_missing).contains n))
      = true := by
  obtain ⟨h1, h2, _⟩ := packStep_foldl_spec wb ((sortByOrder (cfg.pack_sheets.getD [])).enum)
    { dest_sheets := [DestSheet.new "Sheet"], sheets_copied := [],
      sheets_missing := [], total_expected_pages := 0 }
  have hc : (create_pack_workbook sp op wb cfg).2.sheets_copied
      = copiedOf wb (sortByOrder (cfg.pack_sheets.getD [])) := by
    simp only [create_pack_workbook]
    rw [h1]
    simp [List.enum_map_snd]
  have hm : (create_pack_workbook sp op wb cfg).2.sheets_missing
      = missingOf wb (sortByOrder (cfg.pack_sheets.getD [])) := by
    simp only [create_pack_workbook]
    rw [h2]
    simp [List.enum_map_snd]
  constructor
  · rw [hc, hm]
    have hperm1 : (copiedOf wb (sortByOrder (cfg.pack_sheets.getD []))
        ++ missingOf wb (sortByOrder (cfg.pack_sheets.getD []))).Perm
        ((sortByOrder (cfg.pack_sheets.getD [])).map SheetSpec.name) := by
      rw [copiedOf, missingOf, ← List.map_append]
      exact (List.filter_append_perm _ _).map SheetSpec.name
    exact hperm1.trans ((List.perm_insertionSort orderLe _).map SheetSpec.name)
  · rw [hc, hm, List.all_eq_true]
    intro n hn
    have hcont : wb.sheetnames.contains n = true := by
      simp only [copiedOf, List.mem_map, List.mem_filter, foundInSource] at hn
      obtain ⟨s, ⟨_, hf⟩, rfl⟩ := hn
      exact hf
    have hnotmem : n ∉ missingOf wb (sortByOrder (cfg.pack_sheets.getD [])) := by
      intro hmem
      simp only [missingOf, List.mem_map, List.mem_filter, foundInSource,
        Bool.not_eq_true'] at hmem
      obtain ⟨s, ⟨_, hf⟩, hname⟩ := hmem
      rw [hname] at hf
      rw [hcont] at hf
      exact Bool.true_eq_false.mp hf
    simp [hnotmem]

/-- Claim C8: the Result expected_pages is the sum of the configured
expected_pages (default 1) over exactly the found specs, which are the
specs recorded in sheets_copied; missing sheets contribute nothing. -/
theorem expected_pages_sum_copied (cfg : PackConfig) (wb : SourceWorkbook)
    (sp op : String) :
    (create_pack_workbook sp op wb cfg).2.sheets_copied
        = ((sortByOrder (cfg.pack_sheets.getD [])).filter (foundInSource wb)).map SheetSpec.name
    ∧ (create_pack_workbook sp op wb cfg).2.expected_pages
        = (((sortByOrder (cfg.pack_sheets.getD [])).filter (foundInSource wb)).map
            (fun s => s.expected_pages.getD 1)).sum := by
  obtain ⟨h1, _, h3⟩ := packStep_foldl_spec wb ((sortByOrder (cfg.pack_sheets.getD [])).enum)
    { dest_sheets := [DestSheet.new "Sheet"], sheets_copied := [],
      sheets_missing := [], total_expected_pages := 0 }
  constructor
  · simp only [create_pack_workbook]
    rw [h1]
    simp [List.enum_map_snd, copiedOf]
  · simp only [create_pack_workbook]
    rw [h3]
    simp [List.enum_map_snd, pagesOf]

/-- Claim C9: copy_sheet_content into a fresh sheet recreates every merged
range of the source, copies the raw value of every non-subordinate cell
verbatim to the same address (formula strings staying literal), and leaves
every non-anchor cell of a merge without a value. -/
theorem copy_sheet_content_spec (src : SourceSheet) (t : String)
    (hkeys : (src.cells.map Prod.fst).Nodup) :
    (copy_sheet_content src (DestSheet.new t)).mergedRanges = src.mergedRanges
    ∧ (∀ a : Nat × Nat, isMergedSubordinate src.mergedRanges a.1 a.2 = false →
        getAssoc (copy_sheet_content src (DestSheet.new t)).cells a = getAssoc src.cells a)
    ∧ (∀ r, r ∈ src.mergedRanges → ∀ a : Nat × Nat, r.containsCell a.1 a.2 = true →
        a ≠ (r.minRow, r.minCol) →
        getAssoc (copy_sheet_content src (DestSheet.new t)).cells a = none) := by
  refine ⟨?_, ?_, ?_⟩
  · simp [copy_sheet_content, DestSheet.new]
  · intro a ha
    have h := foldl_copyCellStep_value src.mergedRanges a ha src.cells hkeys []
    simpa [copy_sheet_content, DestSheet.new, getAssoc] using h
  · intro r hr a hain hane
    have hsub : isMergedSubordinate src.mergedRanges a.1 a.2 = true := by
      rw [isMergedSubordinate, List.any_eq_true]
      refine ⟨r, hr, ?_⟩
      rw [hain]
      simp only [Bool.true_and, Bool.not_eq_true', Bool.and_eq_false_iff]
      by_cases h1 : a.1 = r.minRow
      · right
        rw [beq_eq_false_iff_ne]
        intro h2
        exact hane (Prod.ext h1 h2)
      · left
        rw [beq_eq_false_iff_ne]
        exact h1
    have h := foldl_copyCellStep_subordinate src.mergedRanges a hsub src.cells []
    simpa [copy_sheet_content, DestSheet.new, getAssoc] using h

/-- A source sheet with a vertical merge A1:A2 (anchor at row 1, column 1)
and a formula kept as literal text in cell B1 (row 1, column 2). -/
def exSourceSheet : SourceSheet :=
  { cells := [((1, 1), CellValue.vInt 42), ((1, 2), CellValue.vStr "=A1*2"),
      ((2, 1), CellValue.vEmpty)],
    mergedRanges := [{ minRow := 1, minCol := 1, maxRow := 2, maxCol := 1 }],
    printArea := none, pageSetup := none, columnDims := [], rowDims := [] }

theorem copy_sheet_content_spec_witness :
    (copy_sheet_content exSourceSheet (DestSheet.new "Annual CF")).mergedRanges
        = [{ minRow := 1, minCol := 1, maxRow := 2, maxCol := 1 }]
    ∧ getAssoc (copy_sheet_content exSourceSheet (DestSheet.new "Annual CF")).cells (1, 1)
        = some (CellValue.vInt 42)
    ∧ getAssoc (copy_sheet_content exSourceSheet (DestSheet.new "Annual CF")).cells (1, 2)
        = some (CellValue.vStr "=A1*2")
    ∧ getAssoc (copy_sheet_content exSourceSheet (DestSheet.new "Annual CF")).cells (2, 1)
        = none := by
  obtain ⟨m, v, s⟩ := copy_sheet_content_spec exSourceSheet "Annual CF" (by decide)
  refine ⟨m, ?_, ?_, ?_⟩
  · exact (v (1, 1) (by decide)).trans (by decide)
  · exact (v (1, 2) (by decide)).trans (by decide)
  · exact s { minRow := 1, minCol := 1, maxRow := 2, maxCol := 1 } (by decide) (2, 1)
      (by decide) (by decide)

/-- Claim C10: every normal return of create_pack_workbook carries
success true, and main then exits with code 0 (holds in particular when
every configured sheet is missing). -/
theorem success_always_true_exit_zero (cfg : PackConfig) (wb : SourceWorkbook)
    (sp op : String) :
    (create_pack_workbook sp op wb cfg).2.success = true
    ∧ exitCodeOf (create_pack_workbook sp op wb cfg).2 = 0 := by
  constructor
  · simp [create_pack_workbook]
  · simp [exitCodeOf, create_pack_workbook]

end PackXlsx
